import Mathlib

/-!
# Raisr_globals.h: constants and precomputed Gaussian tables

A shallow embedding of the constant definitions of Library/Raisr_globals.h
(Intel Library for Video Super Resolution) followed by the properties the
design document states about them.

Conventions of the embedding:
* the C int constants and the integer-valued range constants are Ints (every value is far
  below 2^31, so no wrap-around can occur);
* a float or double value is represented by the rational number it denotes. Constants and
  arithmetic follow IEEE 754 with round-to-nearest, ties-to-even: a decimal constant is
  rounded to binary64 (binary32 with the f suffix), an operation on two floats is rounded
  to binary32, a product of a float and a double is rounded to binary64, and storing a
  double into a float table rounds it to binary32. A table is a function of its row and
  column index and returns the stored binary32 value.
-/

namespace Raisr

/-! ## const variables (lines 20-37) -/

/-- Preprocessor constant MAX8BIT_FULL, written 0xff in the source. -/
def MAX8BIT_FULL : Int := 0xff
/-- Preprocessor constant MAX10BIT_FULL, written 0x3ff in the source. -/
def MAX10BIT_FULL : Int := 0x3ff
/-- Preprocessor constant MAX16BIT_FULL, written 0xffff in the source. -/
def MAX16BIT_FULL : Int := 0xffff
/-- Preprocessor constant MIN_FULL. -/
def MIN_FULL : Int := 0

/-- Side of the census-transform (CT) blending window. -/
def CTwindowSize : Int := 3
/-- Number of neighbours compared with the centre of the CT window. -/
def CTnumberofPixel : Int := CTwindowSize * CTwindowSize - 1
/-- Margin of the CT window: the side shifted right by one bit. -/
def CTmargin : Int := CTwindowSize >>> 1
/-- Rows by which a segment is expanded for hashing. The source comment reads: the segment is
again expanded by CTmargin so that all the rows in the segment can be processed by
CTCountOfBitsChanged(); "+1" is to make sure the resize zone is even. -/
def gHashingExpand : Int := CTmargin + 1

/-! ## Binary floating point

The values of the C types float (binary32) and double (binary64), as rationals. Every value
that occurs in the header lies between 2^-48 and 2^35 in magnitude or is zero, far from
overflow; the rounding below covers the normal and the subnormal range. -/

/-- Power of two with an integer exponent. -/
def pow2 (e : Int) : ℚ :=
  if 0 ≤ e then ((2 ^ e.toNat : Nat) : ℚ) else 1 / ((2 ^ (-e).toNat : Nat) : ℚ)

/-- Halving loop behind bitLength; the first argument bounds the number of halvings. -/
def bitLengthAux : Nat → Nat → Nat
  | 0, _ => 0
  | fuel + 1, n => if n = 0 then 0 else bitLengthAux fuel (n / 2) + 1

/-- Number of binary digits of n (0 for n = 0). -/
def bitLength (n : Nat) : Nat :=
  bitLengthAux n n

/-- Binary exponent of the positive rational n / d: the integer e with 2^e ≤ n / d < 2^(e+1).
The difference of the bit lengths is either e or e + 1. -/
def binaryExponent (n d : Nat) : Int :=
  let e0 : Int := (bitLength n : Int) - (bitLength d : Int)
  if pow2 e0 * (d : ℚ) ≤ (n : ℚ) then e0 else e0 - 1

/-- Round q to the nearest number with a p-bit significand and binary exponent at least emin
(below 2^emin the spacing stays that of the smallest normal numbers: the subnormal range);
a value halfway between two neighbours goes to the one with an even significand. -/
def roundNearestEven (p : Nat) (emin : Int) (q : ℚ) : ℚ :=
  if q = 0 then 0 else
    let a : ℚ := |q|
    let e : Int := max (binaryExponent a.num.natAbs a.den) emin
    let u : ℚ := pow2 (e - ((p : Int) - 1))
    let m : ℚ := a / u
    let r : Int := Rat.floor m
    let f : ℚ := m - (r : ℚ)
    let k : Int :=
      if f < 1 / 2 then r else if 1 / 2 < f then r + 1 else if r % 2 = 0 then r else r + 1
    (if q < 0 then -1 else 1) * (k : ℚ) * u

/-- Conversion to float: binary32 has a 24-bit significand and smallest normal exponent -126. -/
def toFloat (q : ℚ) : ℚ :=
  roundNearestEven 24 (-126) q

/-- Conversion to double: binary64 has a 53-bit significand and smallest normal exponent -1022. -/
def toDouble (q : ℚ) : ℚ :=
  roundNearestEven 53 (-1022) q

/-- Product of two floats, a float. -/
def floatMul (a b : ℚ) : ℚ :=
  toFloat (a * b)

/-- Quotient of two floats, a float. -/
def floatDiv (a b : ℚ) : ℚ :=
  toFloat (a / b)

/-- A float table element initialised with the double constant c. -/
def stored (c : ℚ) : ℚ :=
  toFloat (toDouble c)

/-- A float table element initialised with nf * c, where nf is a float and c a double constant:
the float is promoted to double (exactly), the product is taken in double, and the result is
converted to float. -/
def storedScaled (nf c : ℚ) : ℚ :=
  toFloat (toDouble (nf * toDouble c))

/-! ## Normalisation factors (lines 193-195) -/

/-- Preprocessor constant NF_8, normalisation factor for 8 bits (the 2.0 is from the gradient
computation): the float expression (1.0f / (255.0f * 255.0f * 2.0f * 2.0f)). -/
def NF_8 : ℚ :=
  floatDiv (toFloat 1.0)
    (floatMul (floatMul (floatMul (toFloat 255.0) (toFloat 255.0)) (toFloat 2.0)) (toFloat 2.0))

/-- Preprocessor constant NF_10, normalisation factor for 10 bits: the float expression
(1.0f / (1023.0f * 1023.0f * 2.0f * 2.0f)). -/
def NF_10 : ℚ :=
  floatDiv (toFloat 1.0)
    (floatMul (floatMul (floatMul (toFloat 1023.0) (toFloat 1023.0)) (toFloat 2.0)) (toFloat 2.0))

/-- Preprocessor constant NF_16, normalisation factor for 16 bits: the float expression
(1.0f / (65535.0f * 65535.0f * 2.0f * 2.0f)). -/
def NF_16 : ℚ :=
  floatDiv (toFloat 1.0)
    (floatMul (floatMul (floatMul (toFloat 65535.0) (toFloat 65535.0)) (toFloat 2.0)) (toFloat 2.0))

/-! ## Precomputed Gaussian filter (lines 198-249) -/

/-- Table gGaussian2DOriginal[11][16] (lines 198-209): the output of createGaussianKernel(),
each row padded with one leading and four trailing zeros. Every initialiser is a double
constant c, written here stored c. -/
def gGaussian2DOriginal : Fin 11 → Fin 16 → ℚ :=
  ![
    ![stored 0.0, stored 7.76554e-05, stored 0.000239195, stored 0.0005738, stored 0.001072, stored 0.00155975, stored 0.00176743, stored 0.00155975, stored 0.001072, stored 0.0005738, stored 0.000239195, stored 7.76554e-05, stored 0.0, stored 0.0, stored 0.0, stored 0.0],
    ![stored 0.0, stored 0.000239195, stored 0.000736774, stored 0.00176743, stored 0.00330199, stored 0.00480437, stored 0.00544406, stored 0.00480437, stored 0.00330199, stored 0.00176743, stored 0.000736774, stored 0.000239195, stored 0.0, stored 0.0, stored 0.0, stored 0.0],
    ![stored 0.0, stored 0.0005738, stored 0.00176743, stored 0.00423984, stored 0.00792107, stored 0.0115251, stored 0.0130596, stored 0.0115251, stored 0.00792107, stored 0.00423984, stored 0.00176743, stored 0.0005738, stored 0.0, stored 0.0, stored 0.0, stored 0.0],
    ![stored 0.0, stored 0.001072, stored 0.00330199, stored 0.00792107, stored 0.0147985, stored 0.0215317, stored 0.0243986, stored 0.0215317, stored 0.0147985, stored 0.00792107, stored 0.00330199, stored 0.001072, stored 0.0, stored 0.0, stored 0.0, stored 0.0],
    ![stored 0.0, stored 0.00155975, stored 0.00480437, stored 0.0115251, stored 0.0215317, stored 0.0313284, stored 0.0354998, stored 0.0313284, stored 0.0215317, stored 0.0115251, stored 0.00480437, stored 0.00155975, stored 0.0, stored 0.0, stored 0.0, stored 0.0],
    ![stored 0.0, stored 0.00176743, stored 0.00544406, stored 0.0130596, stored 0.0243986, stored 0.0354998, stored 0.0402265, stored 0.0354998, stored 0.0243986, stored 0.0130596, stored 0.00544406, stored 0.00176743, stored 0.0, stored 0.0, stored 0.0, stored 0.0],
    ![stored 0.0, stored 0.00155975, stored 0.00480437, stored 0.0115251, stored 0.0215317, stored 0.0313284, stored 0.0354998, stored 0.0313284, stored 0.0215317, stored 0.0115251, stored 0.00480437, stored 0.00155975, stored 0.0, stored 0.0, stored 0.0, stored 0.0],
    ![stored 0.0, stored 0.001072, stored 0.00330199, stored 0.00792107, stored 0.0147985, stored 0.0215317, stored 0.0243986, stored 0.0215317, stored 0.0147985, stored 0.00792107, stored 0.00330199, stored 0.001072, stored 0.0, stored 0.0, stored 0.0, stored 0.0],
    ![stored 0.0, stored 0.0005738, stored 0.00176743, stored 0.00423984, stored 0.00792107, stored 0.0115251, stored 0.0130596, stored 0.0115251, stored 0.00792107, stored 0.00423984, stored 0.00176743, stored 0.0005738, stored 0.0, stored 0.0, stored 0.0, stored 0.0],
    ![stored 0.0, stored 0.000239195, stored 0.000736774, stored 0.00176743, stored 0.00330199, stored 0.00480437, stored 0.00544406, stored 0.00480437, stored 0.00330199, stored 0.00176743, stored 0.000736774, stored 0.000239195, stored 0.0, stored 0.0, stored 0.0, stored 0.0],
    ![stored 0.0, stored 7.76554e-05, stored 0.000239195, stored 0.0005738, stored 0.001072, stored 0.00155975, stored 0.00176743, stored 0.00155975, stored 0.001072, stored 0.0005738, stored 0.000239195, stored 7.76554e-05, stored 0.0, stored 0.0, stored 0.0, stored 0.0]]

/-- Table gGaussian2D8bit[11][16] (lines 212-223). An initialiser NF_8*c of the source is written
storedScaled NF_8 c, an initialiser 0.0 is written stored 0.0. -/
def gGaussian2D8bit : Fin 11 → Fin 16 → ℚ :=
  ![
    ![stored 0.0, storedScaled NF_8 7.76554e-05, storedScaled NF_8 0.000239195, storedScaled NF_8 0.0005738, storedScaled NF_8 0.001072, storedScaled NF_8 0.00155975, storedScaled NF_8 0.00176743, storedScaled NF_8 0.00155975, storedScaled NF_8 0.001072, storedScaled NF_8 0.0005738, storedScaled NF_8 0.000239195, storedScaled NF_8 7.76554e-05, stored 0.0, stored 0.0, stored 0.0, stored 0.0],
    ![stored 0.0, storedScaled NF_8 0.000239195, storedScaled NF_8 0.000736774, storedScaled NF_8 0.00176743, storedScaled NF_8 0.00330199, storedScaled NF_8 0.00480437, storedScaled NF_8 0.00544406, storedScaled NF_8 0.00480437, storedScaled NF_8 0.00330199, storedScaled NF_8 0.00176743, storedScaled NF_8 0.000736774, storedScaled NF_8 0.000239195, stored 0.0, stored 0.0, stored 0.0, stored 0.0],
    ![stored 0.0, storedScaled NF_8 0.0005738, storedScaled NF_8 0.00176743, storedScaled NF_8 0.00423984, storedScaled NF_8 0.00792107, storedScaled NF_8 0.0115251, storedScaled NF_8 0.0130596, storedScaled NF_8 0.0115251, storedScaled NF_8 0.00792107, storedScaled NF_8 0.00423984, storedScaled NF_8 0.00176743, storedScaled NF_8 0.0005738, stored 0.0, stored 0.0, stored 0.0, stored 0.0],
    ![stored 0.0, storedScaled NF_8 0.001072, storedScaled NF_8 0.00330199, storedScaled NF_8 0.00792107, storedScaled NF_8 0.0147985, storedScaled NF_8 0.0215317, storedScaled NF_8 0.0243986, storedScaled NF_8 0.0215317, storedScaled NF_8 0.0147985, storedScaled NF_8 0.00792107, storedScaled NF_8 0.00330199, storedScaled NF_8 0.001072, stored 0.0, stored 0.0, stored 0.0, stored 0.0],
    ![stored 0.0, storedScaled NF_8 0.00155975, storedScaled NF_8 0.00480437, storedScaled NF_8 0.0115251, storedScaled NF_8 0.0215317, storedScaled NF_8 0.0313284, storedScaled NF_8 0.0354998, storedScaled NF_8 0.0313284, storedScaled NF_8 0.0215317, storedScaled NF_8 0.0115251, storedScaled NF_8 0.00480437, storedScaled NF_8 0.00155975, stored 0.0, stored 0.0, stored 0.0, stored 0.0],
    ![stored 0.0, storedScaled NF_8 0.00176743, storedScaled NF_8 0.00544406, storedScaled NF_8 0.0130596, storedScaled NF_8 0.0243986, storedScaled NF_8 0.0354998, storedScaled NF_8 0.0402265, storedScaled NF_8 0.0354998, storedScaled NF_8 0.0243986, storedScaled NF_8 0.0130596, storedScaled NF_8 0.00544406, storedScaled NF_8 0.00176743, stored 0.0, stored 0.0, stored 0.0, stored 0.0],
    ![stored 0.0, storedScaled NF_8 0.00155975, storedScaled NF_8 0.00480437, storedScaled NF_8 0.0115251, storedScaled NF_8 0.0215317, storedScaled NF_8 0.0313284, storedScaled NF_8 0.0354998, storedScaled NF_8 0.0313284, storedScaled NF_8 0.0215317, storedScaled NF_8 0.0115251, storedScaled NF_8 0.00480437, storedScaled NF_8 0.00155975, stored 0.0, stored 0.0, stored 0.0, stored 0.0],
    ![stored 0.0, storedScaled NF_8 0.001072, storedScaled NF_8 0.00330199, storedScaled NF_8 0.00792107, storedScaled NF_8 0.0147985, storedScaled NF_8 0.0215317, storedScaled NF_8 0.0243986, storedScaled NF_8 0.0215317, storedScaled NF_8 0.0147985, storedScaled NF_8 0.00792107, storedScaled NF_8 0.00330199, storedScaled NF_8 0.001072, stored 0.0, stored 0.0, stored 0.0, stored 0.0],
    ![stored 0.0, storedScaled NF_8 0.0005738, storedScaled NF_8 0.00176743, storedScaled NF_8 0.00423984, storedScaled NF_8 0.00792107, storedScaled NF_8 0.0115251, storedScaled NF_8 0.0130596, storedScaled NF_8 0.0115251, storedScaled NF_8 0.00792107, storedScaled NF_8 0.00423984, storedScaled NF_8 0.00176743, storedScaled NF_8 0.0005738, stored 0.0, stored 0.0, stored 0.0, stored 0.0],
    ![stored 0.0, storedScaled NF_8 0.000239195, storedScaled NF_8 0.000736774, storedScaled NF_8 0.00176743, storedScaled NF_8 0.00330199, storedScaled NF_8 0.00480437, storedScaled NF_8 0.00544406, storedScaled NF_8 0.00480437, storedScaled NF_8 0.00330199, storedScaled NF_8 0.00176743, storedScaled NF_8 0.000736774, storedScaled NF_8 0.000239195, stored 0.0, stored 0.0, stored 0.0, stored 0.0],
    ![stored 0.0, storedScaled NF_8 7.76554e-05, storedScaled NF_8 0.000239195, storedScaled NF_8 0.0005738, storedScaled NF_8 0.001072, storedScaled NF_8 0.00155975, storedScaled NF_8 0.00176743, storedScaled NF_8 0.00155975, storedScaled NF_8 0.001072, storedScaled NF_8 0.0005738, storedScaled NF_8 0.000239195, storedScaled NF_8 7.76554e-05, stored 0.0, stored 0.0, stored 0.0, stored 0.0]]

/-- Table gGaussian2D10bit[11][16] (lines 225-236). An initialiser NF_10*c of the source is
written storedScaled NF_10 c, an initialiser 0.0 is written stored 0.0. -/
def gGaussian2D10bit : Fin 11 → Fin 16 → ℚ :=
  ![
    ![stored 0.0, storedScaled NF_10 7.76554e-05, storedScaled NF_10 0.000239195, storedScaled NF_10 0.0005738, storedScaled NF_10 0.001072, storedScaled NF_10 0.00155975, storedScaled NF_10 0.00176743, storedScaled NF_10 0.00155975, storedScaled NF_10 0.001072, storedScaled NF_10 0.0005738, storedScaled NF_10 0.000239195, storedScaled NF_10 7.76554e-05, stored 0.0, stored 0.0, stored 0.0, stored 0.0],
    ![stored 0.0, storedScaled NF_10 0.000239195, storedScaled NF_10 0.000736774, storedScaled NF_10 0.00176743, storedScaled NF_10 0.00330199, storedScaled NF_10 0.00480437, storedScaled NF_10 0.00544406, storedScaled NF_10 0.00480437, storedScaled NF_10 0.00330199, storedScaled NF_10 0.00176743, storedScaled NF_10 0.000736774, storedScaled NF_10 0.000239195, stored 0.0, stored 0.0, stored 0.0, stored 0.0],
    ![stored 0.0, storedScaled NF_10 0.0005738, storedScaled NF_10 0.00176743, storedScaled NF_10 0.00423984, storedScaled NF_10 0.00792107, storedScaled NF_10 0.0115251, storedScaled NF_10 0.0130596, storedScaled NF_10 0.0115251, storedScaled NF_10 0.00792107, storedScaled NF_10 0.00423984, storedScaled NF_10 0.00176743, storedScaled NF_10 0.0005738, stored 0.0, stored 0.0, stored 0.0, stored 0.0],
    ![stored 0.0, storedScaled NF_10 0.001072, storedScaled NF_10 0.00330199, storedScaled NF_10 0.00792107, storedScaled NF_10 0.0147985, storedScaled NF_10 0.0215317, storedScaled NF_10 0.0243986, storedScaled NF_10 0.0215317, storedScaled NF_10 0.0147985, storedScaled NF_10 0.00792107, storedScaled NF_10 0.00330199, storedScaled NF_10 0.001072, stored 0.0, stored 0.0, stored 0.0, stored 0.0],
    ![stored 0.0, storedScaled NF_10 0.00155975, storedScaled NF_10 0.00480437, storedScaled NF_10 0.0115251, storedScaled NF_10 0.0215317, storedScaled NF_10 0.0313284, storedScaled NF_10 0.0354998, storedScaled NF_10 0.0313284, storedScaled NF_10 0.0215317, storedScaled NF_10 0.0115251, storedScaled NF_10 0.00480437, storedScaled NF_10 0.00155975, stored 0.0, stored 0.0, stored 0.0, stored 0.0],
    ![stored 0.0, storedScaled NF_10 0.00176743, storedScaled NF_10 0.00544406, storedScaled NF_10 0.0130596, storedScaled NF_10 0.0243986, storedScaled NF_10 0.0354998, storedScaled NF_10 0.0402265, storedScaled NF_10 0.0354998, storedScaled NF_10 0.0243986, storedScaled NF_10 0.0130596, storedScaled NF_10 0.00544406, storedScaled NF_10 0.00176743, stored 0.0, stored 0.0, stored 0.0, stored 0.0],
    ![stored 0.0, storedScaled NF_10 0.00155975, storedScaled NF_10 0.00480437, storedScaled NF_10 0.0115251, storedScaled NF_10 0.0215317, storedScaled NF_10 0.0313284, storedScaled NF_10 0.0354998, storedScaled NF_10 0.0313284, storedScaled NF_10 0.0215317, storedScaled NF_10 0.0115251, storedScaled NF_10 0.00480437, storedScaled NF_10 0.00155975, stored 0.0, stored 0.0, stored 0.0, stored 0.0],
    ![stored 0.0, storedScaled NF_10 0.001072, storedScaled NF_10 0.00330199, storedScaled NF_10 0.00792107, storedScaled NF_10 0.0147985, storedScaled NF_10 0.0215317, storedScaled NF_10 0.0243986, storedScaled NF_10 0.0215317, storedScaled NF_10 0.0147985, storedScaled NF_10 0.00792107, storedScaled NF_10 0.00330199, storedScaled NF_10 0.001072, stored 0.0, stored 0.0, stored 0.0, stored 0.0],
    ![stored 0.0, storedScaled NF_10 0.0005738, storedScaled NF_10 0.00176743, storedScaled NF_10 0.00423984, storedScaled NF_10 0.00792107, storedScaled NF_10 0.0115251, storedScaled NF_10 0.0130596, storedScaled NF_10 0.0115251, storedScaled NF_10 0.00792107, storedScaled NF_10 0.00423984, storedScaled NF_10 0.00176743, storedScaled NF_10 0.0005738, stored 0.0, stored 0.0, stored 0.0, stored 0.0],
    ![stored 0.0, storedScaled NF_10 0.000239195, storedScaled NF_10 0.000736774, storedScaled NF_10 0.00176743, storedScaled NF_10 0.00330199, storedScaled NF_10 0.00480437, storedScaled NF_10 0.00544406, storedScaled NF_10 0.00480437, storedScaled NF_10 0.00330199, storedScaled NF_10 0.00176743, storedScaled NF_10 0.000736774, storedScaled NF_10 0.000239195, stored 0.0, stored 0.0, stored 0.0, stored 0.0],
    ![stored 0.0, storedScaled NF_10 7.76554e-05, storedScaled NF_10 0.000239195, storedScaled NF_10 0.0005738, storedScaled NF_10 0.001072, storedScaled NF_10 0.00155975, storedScaled NF_10 0.00176743, storedScaled NF_10 0.00155975, storedScaled NF_10 0.001072, storedScaled NF_10 0.0005738, storedScaled NF_10 0.000239195, storedScaled NF_10 7.76554e-05, stored 0.0, stored 0.0, stored 0.0, stored 0.0]]

/-- Table gGaussian2D16bit[11][16] (lines 238-249). An initialiser NF_16*c of the source is
written storedScaled NF_16 c, an initialiser 0.0 is written stored 0.0. -/
def gGaussian2D16bit : Fin 11 → Fin 16 → ℚ :=
  ![
    ![stored 0.0, storedScaled NF_16 7.76554e-05, storedScaled NF_16 0.000239195, storedScaled NF_16 0.0005738, storedScaled NF_16 0.001072, storedScaled NF_16 0.00155975, storedScaled NF_16 0.00176743, storedScaled NF_16 0.00155975, storedScaled NF_16 0.001072, storedScaled NF_16 0.0005738, storedScaled NF_16 0.000239195, storedScaled NF_16 7.76554e-05, stored 0.0, stored 0.0, stored 0.0, stored 0.0],
    ![stored 0.0, storedScaled NF_16 0.000239195, storedScaled NF_16 0.000736774, storedScaled NF_16 0.00176743, storedScaled NF_16 0.00330199, storedScaled NF_16 0.00480437, storedScaled NF_16 0.00544406, storedScaled NF_16 0.00480437, storedScaled NF_16 0.00330199, storedScaled NF_16 0.00176743, storedScaled NF_16 0.000736774, storedScaled NF_16 0.000239195, stored 0.0, stored 0.0, stored 0.0, stored 0.0],
    ![stored 0.0, storedScaled NF_16 0.0005738, storedScaled NF_16 0.00176743, storedScaled NF_16 0.00423984, storedScaled NF_16 0.00792107, storedScaled NF_16 0.0115251, storedScaled NF_16 0.0130596, storedScaled NF_16 0.0115251, storedScaled NF_16 0.00792107, storedScaled NF_16 0.00423984, storedScaled NF_16 0.00176743, storedScaled NF_16 0.0005738, stored 0.0, stored 0.0, stored 0.0, stored 0.0],
    ![stored 0.0, storedScaled NF_16 0.001072, storedScaled NF_16 0.00330199, storedScaled NF_16 0.00792107, storedScaled NF_16 0.0147985, storedScaled NF_16 0.0215317, storedScaled NF_16 0.0243986, storedScaled NF_16 0.0215317, storedScaled NF_16 0.0147985, storedScaled NF_16 0.00792107, storedScaled NF_16 0.00330199, storedScaled NF_16 0.001072, stored 0.0, stored 0.0, stored 0.0, stored 0.0],
    ![stored 0.0, storedScaled NF_16 0.00155975, storedScaled NF_16 0.00480437, storedScaled NF_16 0.0115251, storedScaled NF_16 0.0215317, storedScaled NF_16 0.0313284, storedScaled NF_16 0.0354998, storedScaled NF_16 0.0313284, storedScaled NF_16 0.0215317, storedScaled NF_16 0.0115251, storedScaled NF_16 0.00480437, storedScaled NF_16 0.00155975, stored 0.0, stored 0.0, stored 0.0, stored 0.0],
    ![stored 0.0, storedScaled NF_16 0.00176743, storedScaled NF_16 0.00544406, storedScaled NF_16 0.0130596, storedScaled NF_16 0.0243986, storedScaled NF_16 0.0354998, storedScaled NF_16 0.0402265, storedScaled NF_16 0.0354998, storedScaled NF_16 0.0243986, storedScaled NF_16 0.0130596, storedScaled NF_16 0.00544406, storedScaled NF_16 0.00176743, stored 0.0, stored 0.0, stored 0.0, stored 0.0],
    ![stored 0.0, storedScaled NF_16 0.00155975, storedScaled NF_16 0.00480437, storedScaled NF_16 0.0115251, storedScaled NF_16 0.0215317, storedScaled NF_16 0.0313284, storedScaled NF_16 0.0354998, storedScaled NF_16 0.0313284, storedScaled NF_16 0.0215317, storedScaled NF_16 0.0115251, storedScaled NF_16 0.00480437, storedScaled NF_16 0.00155975, stored 0.0, stored 0.0, stored 0.0, stored 0.0],
    ![stored 0.0, storedScaled NF_16 0.001072, storedScaled NF_16 0.00330199, storedScaled NF_16 0.00792107, storedScaled NF_16 0.0147985, storedScaled NF_16 0.0215317, storedScaled NF_16 0.0243986, storedScaled NF_16 0.0215317, storedScaled NF_16 0.0147985, storedScaled NF_16 0.00792107, storedScaled NF_16 0.00330199, storedScaled NF_16 0.001072, stored 0.0, stored 0.0, stored 0.0, stored 0.0],
    ![stored 0.0, storedScaled NF_16 0.0005738, storedScaled NF_16 0.00176743, storedScaled NF_16 0.00423984, storedScaled NF_16 0.00792107, storedScaled NF_16 0.0115251, storedScaled NF_16 0.0130596, storedScaled NF_16 0.0115251, storedScaled NF_16 0.00792107, storedScaled NF_16 0.00423984, storedScaled NF_16 0.00176743, storedScaled NF_16 0.0005738, stored 0.0, stored 0.0, stored 0.0, stored 0.0],
    ![stored 0.0, storedScaled NF_16 0.000239195, storedScaled NF_16 0.000736774, storedScaled NF_16 0.00176743, storedScaled NF_16 0.00330199, storedScaled NF_16 0.00480437, storedScaled NF_16 0.00544406, storedScaled NF_16 0.00480437, storedScaled NF_16 0.00330199, storedScaled NF_16 0.00176743, storedScaled NF_16 0.000736774, storedScaled NF_16 0.000239195, stored 0.0, stored 0.0, stored 0.0, stored 0.0],
    ![stored 0.0, storedScaled NF_16 7.76554e-05, storedScaled NF_16 0.000239195, storedScaled NF_16 0.0005738, storedScaled NF_16 0.001072, storedScaled NF_16 0.00155975, storedScaled NF_16 0.00176743, storedScaled NF_16 0.00155975, storedScaled NF_16 0.001072, storedScaled NF_16 0.0005738, storedScaled NF_16 0.000239195, storedScaled NF_16 7.76554e-05, stored 0.0, stored 0.0, stored 0.0, stored 0.0]]

/-! ## Derived notions used by the statements -/

/-- The 11 x 11 window stored in columns 1..11 of a table: entry (i, k) of the window is
entry (i, k + 1) of the table. -/
def window (t : Fin 11 → Fin 16 → ℚ) (i k : Fin 11) : ℚ :=
  t i ⟨k.val + 1, by omega⟩

/-- Index 10 - i of the 11 x 11 window. -/
def mirror (i : Fin 11) : Fin 11 :=
  ⟨10 - i.val, by omega⟩

/-- Sum of all 11 x 16 entries of a table. -/
def tableSum (t : Fin 11 → Fin 16 → ℚ) : ℚ :=
  ∑ i : Fin 11, ∑ j : Fin 16, t i j

/-! ## Properties of the rounding -/

/-- Powers of two are positive. -/
theorem pow2_pos (e : Int) : 0 < pow2 e := by
  unfold pow2
  split
  · exact_mod_cast pow_pos (by norm_num : 0 < 2) _
  · apply div_pos one_pos
    exact_mod_cast pow_pos (by norm_num : 0 < 2) _

/-- The rounded value is a nearest point of the grid: it is within half a grid step of q. -/
theorem roundNearestEven_error (p : Nat) (emin : Int) (q : ℚ) :
    |roundNearestEven p emin q - q| ≤
      pow2 (max (binaryExponent |q|.num.natAbs |q|.den) emin - ((p : Int) - 1)) / 2 := by
  unfold roundNearestEven
  by_cases hq : q = 0
  · simp only [hq, if_true, sub_self, abs_zero]
    exact le_of_lt (half_pos (pow2_pos _))
  · simp only [hq, if_false]
    set u := pow2 (max (binaryExponent |q|.num.natAbs |q|.den) emin - ((p : Int) - 1)) with hu
    have hu0 : 0 < u := pow2_pos _
    set m := |q| / u with hm
    have hfl : ((Rat.floor m : Int) : ℚ) ≤ m := by
      exact Int.floor_le m
    have hlt : m < ((Rat.floor m : Int) : ℚ) + 1 := by
      exact Int.lt_floor_add_one m
    have ha : |q| = m * u := by rw [hm]; field_simp
    -- the chosen integer is within one half of m
    have hk : ∀ k : Int, |(k : ℚ) - m| ≤ 1 / 2 →
        |(if q < 0 then -1 else 1) * (k : ℚ) * u - q| ≤ u / 2 := by
      intro k hk
      by_cases hneg : q < 0
      · have hqa : q = -(m * u) := by rw [← ha, abs_of_neg hneg]; ring
        have e : (-1 : ℚ) * (k : ℚ) * u - q = -(((k : ℚ) - m) * u) := by rw [hqa]; ring
        rw [if_pos hneg, e, abs_neg, abs_mul, abs_of_pos hu0]
        calc |(k : ℚ) - m| * u ≤ 1 / 2 * u := mul_le_mul_of_nonneg_right hk hu0.le
          _ = u / 2 := by ring
      · have hqa : q = m * u := by rw [← ha, abs_of_nonneg (le_of_not_lt hneg)]
        have e : (1 : ℚ) * (k : ℚ) * u - q = ((k : ℚ) - m) * u := by rw [hqa]; ring
        rw [if_neg hneg, e, abs_mul, abs_of_pos hu0]
        calc |(k : ℚ) - m| * u ≤ 1 / 2 * u := mul_le_mul_of_nonneg_right hk hu0.le
          _ = u / 2 := by ring
    apply hk
    split_ifs with h1 h2 h3
    · rw [abs_le]; constructor <;> linarith
    · rw [abs_le]; push_cast; constructor <;> linarith
    · rw [abs_le]; constructor <;> linarith
    · rw [abs_le]; push_cast; constructor <;> linarith

/-- The power of two written with the integer power of the rationals. -/
theorem pow2_eq_zpow (e : Int) : pow2 e = (2 : ℚ) ^ e := by
  unfold pow2
  split
  · rename_i h
    obtain ⟨n, rfl⟩ := Int.eq_ofNat_of_zero_le h
    simp
  · rename_i h
    obtain ⟨n, hn⟩ := Int.exists_eq_neg_ofNat (le_of_lt (not_le.mp h))
    subst hn
    simp

/-- With enough halvings allowed, the loop returns the number b of binary digits:
2^(b-1) ≤ n < 2^b. -/
theorem bitLengthAux_spec (fuel : Nat) : ∀ n : Nat, n ≤ fuel → 0 < n →
    2 ^ (bitLengthAux fuel n - 1) ≤ n ∧ n < 2 ^ bitLengthAux fuel n ∧ 0 < bitLengthAux fuel n := by
  induction fuel with
  | zero => intro n h1 h2; omega
  | succ f ih =>
    intro n h1 h2
    have hn : n ≠ 0 := by omega
    simp only [bitLengthAux, hn, if_false]
    by_cases h : n / 2 = 0
    · have h1n : n = 1 := by omega
      subst h1n
      have : bitLengthAux f (1 / 2) = 0 := by
        cases f <;> simp [bitLengthAux]
      simp [this]
    · obtain ⟨a, b, c⟩ := ih (n / 2) (by omega) (by omega)
      refine ⟨?_, ?_, by omega⟩
      · have e : bitLengthAux f (n / 2) + 1 - 1 = (bitLengthAux f (n / 2) - 1) + 1 := by omega
        rw [e, pow_succ]
        omega
      · rw [pow_succ]
        omega

/-- A positive n has bitLength n binary digits: 2^(b-1) ≤ n < 2^b. -/
theorem bitLength_spec (n : Nat) (h : 0 < n) :
    2 ^ (bitLength n - 1) ≤ n ∧ n < 2 ^ bitLength n ∧ 0 < bitLength n :=
  bitLengthAux_spec n n le_rfl h

/-- The binary exponent brackets the quotient: 2^e * d ≤ n < 2^(e+1) * d. -/
theorem binaryExponent_spec (n d : Nat) (hn : 0 < n) (hd : 0 < d) :
    pow2 (binaryExponent n d) * (d : ℚ) ≤ (n : ℚ) ∧
    (n : ℚ) < pow2 (binaryExponent n d + 1) * (d : ℚ) := by
  obtain ⟨n1, n2, n3⟩ := bitLength_spec n hn
  obtain ⟨d1, d2, d3⟩ := bitLength_spec d hd
  have two : (0 : ℚ) < 2 := by norm_num
  have hn1 : (2 : ℚ) ^ ((bitLength n : Int) - 1) ≤ (n : ℚ) := by
    have e : ((bitLength n : Int) - 1) = ((bitLength n - 1 : Nat) : Int) := by omega
    rw [e, zpow_natCast]
    exact_mod_cast n1
  have hn2 : (n : ℚ) < (2 : ℚ) ^ (bitLength n : Int) := by
    rw [zpow_natCast]
    exact_mod_cast n2
  have hd1 : (2 : ℚ) ^ ((bitLength d : Int) - 1) ≤ (d : ℚ) := by
    have e : ((bitLength d : Int) - 1) = ((bitLength d - 1 : Nat) : Int) := by omega
    rw [e, zpow_natCast]
    exact_mod_cast d1
  have hd2 : (d : ℚ) < (2 : ℚ) ^ (bitLength d : Int) := by
    rw [zpow_natCast]
    exact_mod_cast d2
  unfold binaryExponent
  simp only
  split
  · rename_i h
    refine ⟨h, ?_⟩
    rw [pow2_eq_zpow]
    have hp : (0 : ℚ) < 2 ^ ((bitLength n : Int) - (bitLength d : Int) + 1) := zpow_pos two _
    calc (n : ℚ) < 2 ^ (bitLength n : Int) := hn2
      _ = 2 ^ ((bitLength n : Int) - (bitLength d : Int) + 1) * 2 ^ ((bitLength d : Int) - 1) := by
          rw [← zpow_add₀ two.ne']
          congr 1
          ring
      _ ≤ 2 ^ ((bitLength n : Int) - (bitLength d : Int) + 1) * (d : ℚ) :=
          mul_le_mul_of_nonneg_left hd1 hp.le
  · rename_i h
    constructor
    · rw [pow2_eq_zpow]
      have hp : (0 : ℚ) < 2 ^ ((bitLength n : Int) - (bitLength d : Int) - 1) := zpow_pos two _
      calc (2 : ℚ) ^ ((bitLength n : Int) - (bitLength d : Int) - 1) * (d : ℚ)
          ≤ 2 ^ ((bitLength n : Int) - (bitLength d : Int) - 1) * 2 ^ (bitLength d : Int) :=
            mul_le_mul_of_nonneg_left hd2.le hp.le
        _ = 2 ^ ((bitLength n : Int) - 1) := by
            rw [← zpow_add₀ two.ne']
            congr 1
            ring
        _ ≤ (n : ℚ) := hn1
    · have e : (bitLength n : Int) - (bitLength d : Int) - 1 + 1
          = (bitLength n : Int) - (bitLength d : Int) := by ring
      rw [e]
      exact not_le.mp h

/-- In the normal range rounding to p bits has relative error at most 2^-p: for
2^emin ≤ |q| the rounded value differs from q by at most |q| / 2^p. -/
theorem roundNearestEven_relative_error (p : Nat) (emin : Int) (q : ℚ)
    (h : pow2 emin ≤ |q|) : |roundNearestEven p emin q - q| ≤ |q| / 2 ^ p := by
  have two : (0 : ℚ) < 2 := by norm_num
  have ha : 0 < |q| := lt_of_lt_of_le (pow2_pos emin) h
  have hnum : 0 < |q|.num := Rat.num_pos.mpr ha
  have hn : 0 < |q|.num.natAbs := Int.natAbs_pos.mpr hnum.ne'
  have hd : 0 < |q|.den := |q|.den_pos
  have hdq : (0 : ℚ) < (|q|.den : ℚ) := by exact_mod_cast hd
  have hq : ((|q|.num.natAbs : Nat) : ℚ) = |q| * (|q|.den : ℚ) := by
    have e1 : ((|q|.num.natAbs : Nat) : ℚ) = ((|q|.num : Int) : ℚ) := by
      have h0 : ((|q|.num.natAbs : Nat) : Int) = |q|.num := Int.natAbs_of_nonneg hnum.le
      rw [← Int.cast_natCast, h0]
    rw [e1]
    exact (Rat.mul_den_eq_num |q|).symm
  obtain ⟨s1, s2⟩ := binaryExponent_spec _ _ hn hd
  rw [hq] at s1 s2
  have s1 := le_of_mul_le_mul_right s1 hdq
  have s2 := lt_of_mul_lt_mul_right s2 hdq.le
  -- the exponent is in the normal range
  have he : emin ≤ binaryExponent |q|.num.natAbs |q|.den := by
    have h3 := lt_of_le_of_lt h s2
    rw [pow2_eq_zpow, pow2_eq_zpow] at h3
    have h4 := (zpow_lt_zpow_iff_right₀ (by norm_num : (1 : ℚ) < 2)).mp h3
    omega
  have hb := roundNearestEven_error p emin q
  rw [max_eq_left he] at hb
  refine le_trans hb ?_
  rw [pow2_eq_zpow] at s1 ⊢
  have e : (2 : ℚ) ^ (binaryExponent |q|.num.natAbs |q|.den - ((p : Int) - 1)) / 2
      = 2 ^ (binaryExponent |q|.num.natAbs |q|.den) / 2 ^ p := by
    rw [zpow_sub₀ two.ne', zpow_sub₀ two.ne', zpow_natCast, zpow_one]
    field_simp
    ring
  rw [e]
  exact div_le_div_of_nonneg_right s1 (pow_pos two p).le

/-! ## Checks of the floating-point model -/

/-- One third as a float is 0x1.555556p-2, one tenth as a double is 0x1.999999999999ap-4. -/
theorem rounding_known_values :
    toFloat (1 / 3) = 11184811 / 2 ^ 25 ∧ toDouble (1 / 10) = 3602879701896397 / 2 ^ 55 := by
  decide!

/-- Halfway cases go to the even significand: 1 + 2^-24 rounds down to 1, 1 + 3 * 2^-24
rounds up to 1 + 2^-22, and the same holds for the negated values. -/
theorem rounding_ties_to_even :
    toFloat (1 + 1 / 2 ^ 24) = 1 ∧ toFloat (1 + 3 / 2 ^ 24) = 1 + 1 / 2 ^ 22 ∧
    toFloat (-(1 + 1 / 2 ^ 24)) = -1 ∧ toFloat (-(1 + 3 / 2 ^ 24)) = -(1 + 1 / 2 ^ 22) := by
  decide!

/-- Below the normal range the spacing is 2^-149: 3 * 2^-150 rounds to 2^-148 and 2^-150
rounds to zero; numbers just below a power of two round up to it. -/
theorem rounding_subnormal_and_carry :
    toFloat (3 / 2 ^ 150) = 1 / 2 ^ 148 ∧ toFloat (1 / 2 ^ 150) = 0 ∧
    toFloat (2 - 1 / 2 ^ 25) = 2 := by
  decide!

/-- The integers of the normalisation factors are exact floats, except that the square of
65535 needs 32 bits and rounds to 4294836224. -/
theorem factor_denominators :
    floatMul (toFloat 255.0) (toFloat 255.0) = 65025 ∧
    floatMul (toFloat 1023.0) (toFloat 1023.0) = 1046529 ∧
    floatMul (toFloat 65535.0) (toFloat 65535.0) = 4294836224 := by
  decide!

/-! ## Shared lemmas -/

/-- The stored values of the three normalisation factors. -/
theorem NF_values :
    NF_8 = 4227265 / 2 ^ 40 ∧ NF_10 = 1050627 / 2 ^ 42 ∧ NF_16 = 32769 / 2 ^ 49 := by
  decide!

/-- The exact sum of the stored entries of the unscaled table, about 1 + 3.7e-7. -/
theorem tableSum_original : tableSum gGaussian2DOriginal = 34359751025 / 2 ^ 35 := by
  decide!

/-- The 8-bit weight times (2 * 255)^2 is within relative 2^-23 of the unscaled weight. -/
theorem weight8_close :
    ∀ (i : Fin 11) (j : Fin 16),
      |gGaussian2D8bit i j * (2 * 255) ^ 2 - gGaussian2DOriginal i j|
        ≤ gGaussian2DOriginal i j / 2 ^ 23 := by
  decide!

/-- The 10-bit weight times (2 * 1023)^2 is within relative 2^-23 of the unscaled weight. -/
theorem weight10_close :
    ∀ (i : Fin 11) (j : Fin 16),
      |gGaussian2D10bit i j * (2 * 1023) ^ 2 - gGaussian2DOriginal i j|
        ≤ gGaussian2DOriginal i j / 2 ^ 23 := by
  decide!

/-- The 16-bit weight times (2 * 65535)^2 is within relative 2^-23 of the unscaled weight. -/
theorem weight16_close :
    ∀ (i : Fin 11) (j : Fin 16),
      |gGaussian2D16bit i j * (2 * 65535) ^ 2 - gGaussian2DOriginal i j|
        ≤ gGaussian2DOriginal i j / 2 ^ 23 := by
  decide!

/-- A relative bound at t = 1 extends to every t: both sides scale by t^2. -/
theorem close_mul_sq (w o c t : ℚ) (h : |w * c ^ 2 - o| ≤ o / 2 ^ 23) :
    |w * (c * t) ^ 2 - o * t ^ 2| ≤ o * t ^ 2 / 2 ^ 23 := by
  have e1 : w * (c * t) ^ 2 - o * t ^ 2 = (w * c ^ 2 - o) * t ^ 2 := by ring
  have e2 : o * t ^ 2 / 2 ^ 23 = o / 2 ^ 23 * t ^ 2 := by ring
  rw [e1, e2, abs_mul, abs_of_nonneg (sq_nonneg t)]
  exact mul_le_mul_of_nonneg_right h (sq_nonneg t)

/-- Two values within relative 2^-23 of a third are within relative 2^-22 of each other. -/
theorem close_pair (a b o : ℚ) (ha : |a - o| ≤ o / 2 ^ 23) (hb : |b - o| ≤ o / 2 ^ 23) :
    |a - b| ≤ o / 2 ^ 22 := by
  have h := abs_sub_le a o b
  rw [abs_sub_comm o b] at h
  have e : o / 2 ^ 22 = o / 2 ^ 23 + o / 2 ^ 23 := by ring
  rw [e]
  exact le_trans h (add_le_add ha hb)

/-! ## Claims -/

/-- Claim C1 as stated fails on the values the header stores: NF_8 is 4227265 / 2^40, not
1/(255*255*2*2), and the entry gGaussian2D8bit[3][5] = 5825293 / 2^46 is neither the exact
product NF_8 * gGaussian2DOriginal[3][5] nor that product rounded to float (11650585 / 2^47),
nor 1/(255*255*2*2) times the unscaled entry. -/
theorem scaled_entry_ne_factor_mul_original :
    NF_8 ≠ 1 / (255 * 255 * 2 * 2) ∧
    gGaussian2D8bit 3 5 = 5825293 / 2 ^ 46 ∧
    gGaussian2DOriginal 3 5 = 11559743 / 2 ^ 29 ∧
    toFloat (NF_8 * gGaussian2DOriginal 3 5) = 11650585 / 2 ^ 47 ∧
    gGaussian2D8bit 3 5 ≠ NF_8 * gGaussian2DOriginal 3 5 ∧
    gGaussian2D8bit 3 5 ≠ toFloat (NF_8 * gGaussian2DOriginal 3 5) ∧
    gGaussian2D8bit 3 5 ≠ 1 / (255 * 255 * 2 * 2) * gGaussian2DOriginal 3 5 := by
  decide!

/-- Claim C1, amended: on the float values the header stores, the three depth-scaled tables
are the unscaled table times their normalisation constant up to rounding: for every row i in
0..10 and column j in 0..15 the entry of the depth-d table differs from
NF_d * gGaussian2DOriginal[i][j] by at most 2^-23 of that product (so the zero entries agree
exactly), where NF_8 = 4227265 / 2^40, NF_10 = 1050627 / 2^42 and NF_16 = 32769 / 2^49 are
within relative 2^-24 of 1/(255*255*2*2), 1/(1023*1023*2*2) and 1/(65535*65535*2*2). -/
theorem scaled_tables_factor_within_rounding :
    (NF_8 = 4227265 / 2 ^ 40 ∧ NF_10 = 1050627 / 2 ^ 42 ∧ NF_16 = 32769 / 2 ^ 49) ∧
    (|NF_8 - 1 / (255 * 255 * 2 * 2)| ≤ 1 / (255 * 255 * 2 * 2) / 2 ^ 24 ∧
      |NF_10 - 1 / (1023 * 1023 * 2 * 2)| ≤ 1 / (1023 * 1023 * 2 * 2) / 2 ^ 24 ∧
      |NF_16 - 1 / (65535 * 65535 * 2 * 2)| ≤ 1 / (65535 * 65535 * 2 * 2) / 2 ^ 24) ∧
    ∀ (i : Fin 11) (j : Fin 16),
      |gGaussian2D8bit i j - NF_8 * gGaussian2DOriginal i j|
        ≤ NF_8 * gGaussian2DOriginal i j / 2 ^ 23 ∧
      |gGaussian2D10bit i j - NF_10 * gGaussian2DOriginal i j|
        ≤ NF_10 * gGaussian2DOriginal i j / 2 ^ 23 ∧
      |gGaussian2D16bit i j - NF_16 * gGaussian2DOriginal i j|
        ≤ NF_16 * gGaussian2DOriginal i j / 2 ^ 23 := by
  refine ⟨NF_values, ?_, ?_⟩
  · decide!
  · decide!

/-- Claim C2 as stated fails on the values the header stores: NF_d * (2 * MAXdBIT_FULL)^2 is
not 1 for any of the three depths, and at table position (5, 6) with t = 1 no two of the four
weighted squared gradients are equal. -/
theorem weighted_gradient_ne_across_depths :
    NF_8 * (2 * (MAX8BIT_FULL : ℚ)) ^ 2 ≠ 1 ∧
    NF_10 * (2 * (MAX10BIT_FULL : ℚ)) ^ 2 ≠ 1 ∧
    NF_16 * (2 * (MAX16BIT_FULL : ℚ)) ^ 2 ≠ 1 ∧
    gGaussian2D8bit 5 6 * (2 * 255 * 1) ^ 2 ≠ gGaussian2D10bit 5 6 * (2 * 1023 * 1) ^ 2 ∧
    gGaussian2D10bit 5 6 * (2 * 1023 * 1) ^ 2 ≠ gGaussian2D16bit 5 6 * (2 * 65535 * 1) ^ 2 ∧
    gGaussian2D16bit 5 6 * (2 * 65535 * 1) ^ 2 ≠ gGaussian2DOriginal 5 6 * 1 ^ 2 ∧
    gGaussian2D8bit 5 6 * (2 * 255 * 1) ^ 2 ≠ gGaussian2DOriginal 5 6 * 1 ^ 2 ∧
    gGaussian2D10bit 5 6 * (2 * 1023 * 1) ^ 2 ≠ gGaussian2DOriginal 5 6 * 1 ^ 2 := by
  decide!

/-- Claim C2, amended: with MAX8BIT_FULL = 255, MAX10BIT_FULL = 1023 and
MAX16BIT_FULL = 65535, on the float values the header stores NF_d * (2 * MAXdBIT_FULL)^2
differs from 1 by less than 4 * 10^-9 for d = 8, 10, 16, and for every table position (i, j)
and every rational t each weighted squared gradient table_d[i][j] * (2 * MAXd * t)^2 differs
from gGaussian2DOriginal[i][j] * t^2 by at most 2^-23 of the latter, so that the values at
two depths differ by at most 2^-22 of it (exact rational arithmetic on the stored values). -/
theorem weighted_gradient_depth_tolerance :
    (MAX8BIT_FULL = 255 ∧ MAX10BIT_FULL = 1023 ∧ MAX16BIT_FULL = 65535) ∧
    (|NF_8 * (2 * (MAX8BIT_FULL : ℚ)) ^ 2 - 1| < 4 / 10 ^ 9 ∧
      |NF_10 * (2 * (MAX10BIT_FULL : ℚ)) ^ 2 - 1| < 4 / 10 ^ 9 ∧
      |NF_16 * (2 * (MAX16BIT_FULL : ℚ)) ^ 2 - 1| < 4 / 10 ^ 9) ∧
    ∀ (i : Fin 11) (j : Fin 16) (t : ℚ),
      (|gGaussian2D8bit i j * (2 * 255 * t) ^ 2 - gGaussian2DOriginal i j * t ^ 2|
          ≤ gGaussian2DOriginal i j * t ^ 2 / 2 ^ 23 ∧
        |gGaussian2D10bit i j * (2 * 1023 * t) ^ 2 - gGaussian2DOriginal i j * t ^ 2|
          ≤ gGaussian2DOriginal i j * t ^ 2 / 2 ^ 23 ∧
        |gGaussian2D16bit i j * (2 * 65535 * t) ^ 2 - gGaussian2DOriginal i j * t ^ 2|
          ≤ gGaussian2DOriginal i j * t ^ 2 / 2 ^ 23) ∧
      (|gGaussian2D8bit i j * (2 * 255 * t) ^ 2 - gGaussian2D10bit i j * (2 * 1023 * t) ^ 2|
          ≤ gGaussian2DOriginal i j * t ^ 2 / 2 ^ 22 ∧
        |gGaussian2D10bit i j * (2 * 1023 * t) ^ 2 - gGaussian2D16bit i j * (2 * 65535 * t) ^ 2|
          ≤ gGaussian2DOriginal i j * t ^ 2 / 2 ^ 22) := by
  refine ⟨by decide, by decide!, ?_⟩
  intro i j t
  have h8 := close_mul_sq _ _ _ t (weight8_close i j)
  have h10 := close_mul_sq _ _ _ t (weight10_close i j)
  have h16 := close_mul_sq _ _ _ t (weight16_close i j)
  exact ⟨⟨h8, h10, h16⟩, close_pair _ _ _ h8 h10, close_pair _ _ _ h10 h16⟩

/-- Claim C3: the census-transform blend window has the fixed odd side 3 with 8 neighbour
comparisons: CTwindowSize = 3 is odd, CTnumberofPixel = CTwindowSize * CTwindowSize - 1 = 8,
CTmargin = CTwindowSize >> 1 = 1, and 2 * CTmargin + 1 = CTwindowSize. -/
theorem census_window_constants :
    CTwindowSize = 3 ∧ Odd CTwindowSize ∧
    CTnumberofPixel = CTwindowSize * CTwindowSize - 1 ∧ CTnumberofPixel = 8 ∧
    CTmargin = CTwindowSize >>> 1 ∧ CTmargin = 1 ∧
    2 * CTmargin + 1 = CTwindowSize := by
  decide

/-- Claim C4: the full-range pixel bounds are [0,255], [0,1023] and [0,65535]: MIN_FULL = 0,
MAX8BIT_FULL = 2^8 - 1 = 255, MAX10BIT_FULL = 2^10 - 1 = 1023, MAX16BIT_FULL = 2^16 - 1 = 65535. -/
theorem full_range_bounds :
    MIN_FULL = 0 ∧
    (MAX8BIT_FULL = 2 ^ 8 - 1 ∧ MAX8BIT_FULL = 255) ∧
    (MAX10BIT_FULL = 2 ^ 10 - 1 ∧ MAX10BIT_FULL = 1023) ∧
    (MAX16BIT_FULL = 2 ^ 16 - 1 ∧ MAX16BIT_FULL = 65535) := by
  decide

/-- Claim C5 as stated fails: the hashing expansion constant is not equal to the census
blend-window margin (it is 2, the margin is 1). -/
theorem hashing_expand_ne_margin : gHashingExpand ≠ CTmargin := by
  decide

/-- Claim C5, amended: the hashing expansion constant is the census blend-window margin plus
one, gHashingExpand = CTmargin + 1 = 2 with CTmargin = CTwindowSize >> 1 = 1. -/
theorem hashing_expand_eq_margin_succ :
    gHashingExpand = CTmargin + 1 ∧ CTmargin = CTwindowSize >>> 1 ∧ CTmargin = 1 ∧
    gHashingExpand = 2 := by
  decide

/-- Claim C6: gHashingExpand = CTmargin + 1 is the even number 2, so a blending range [s, e)
with an even start row and an even number of rows expands to the range
[s - gHashingExpand, e + gHashingExpand) with an even start row and an even number of rows. -/
theorem hashing_expand_keeps_even (s e : Int) (hs : Even s) (hn : Even (e - s)) :
    gHashingExpand = CTmargin + 1 ∧ gHashingExpand = 2 ∧ Even gHashingExpand ∧
    Even (s - gHashingExpand) ∧
    Even ((e + gHashingExpand) - (s - gHashingExpand)) := by
  have hg : gHashingExpand = 2 := by decide
  refine ⟨by decide, hg, by decide, ?_, ?_⟩
  · rw [hg]
    rw [Int.even_iff] at hs ⊢
    omega
  · rw [hg]
    rw [Int.even_iff] at hn ⊢
    omega

/-- Witness for C6: the blending range [4, 10) expands to [2, 12). -/
theorem hashing_expand_keeps_even_witness :
    Even (4 : Int) ∧ Even ((10 : Int) - 4) ∧
    (gHashingExpand = CTmargin + 1 ∧ gHashingExpand = 2 ∧ Even gHashingExpand ∧
      Even ((4 : Int) - gHashingExpand) ∧
      Even (((10 : Int) + gHashingExpand) - (4 - gHashingExpand))) :=
  ⟨by decide, by decide, hashing_expand_keeps_even 4 10 (by decide) (by decide)⟩

/-- Claim C7: the hashing margin covers the census window of every blending row: for integers
s < e, a row r with s <= r < e and an offset d with -CTmargin <= d <= CTmargin, the row r + d
lies in [s - gHashingExpand, e + gHashingExpand); that is, CTmargin <= gHashingExpand. -/
theorem hashing_range_covers_census_window (s e r d : Int) (_hse : s < e)
    (hr : s ≤ r ∧ r < e) (hd : -CTmargin ≤ d ∧ d ≤ CTmargin) :
    CTmargin ≤ gHashingExpand ∧
    s - gHashingExpand ≤ r + d ∧ r + d < e + gHashingExpand := by
  have hm : CTmargin = 1 := by decide
  have hg : gHashingExpand = 2 := by decide
  rw [hm] at hd
  rw [hm, hg]
  omega

/-- Witness for C7: row 0 of the blending range [0, 4) read at offset -1. -/
theorem hashing_range_covers_census_window_witness :
    ((0 : Int) < 4) ∧ ((0 : Int) ≤ 0 ∧ (0 : Int) < 4) ∧
    (-CTmargin ≤ (-1 : Int) ∧ (-1 : Int) ≤ CTmargin) ∧
    (CTmargin ≤ gHashingExpand ∧
      (0 : Int) - gHashingExpand ≤ 0 + (-1) ∧ (0 : Int) + (-1) < 4 + gHashingExpand) :=
  ⟨by decide, by decide, by decide,
    hashing_range_covers_census_window 0 4 0 (-1) (by decide) (by decide) (by decide)⟩

/-- Claim C8: in each of the four tables, as stored, for every row i in 0..10 the entry at
column j is strictly positive when 1 <= j <= 11 and exactly 0 when j = 0 or 12 <= j <= 15: the
weights fill an 11 x 11 window inside the 11 x 16 storage. -/
theorem gaussian_support :
    (∀ (i : Fin 11) (j : Fin 16),
      (1 ≤ j.val ∧ j.val ≤ 11 → 0 < gGaussian2DOriginal i j) ∧
      (j.val = 0 ∨ (12 ≤ j.val ∧ j.val ≤ 15) → gGaussian2DOriginal i j = 0)) ∧
    (∀ (i : Fin 11) (j : Fin 16),
      (1 ≤ j.val ∧ j.val ≤ 11 → 0 < gGaussian2D8bit i j) ∧
      (j.val = 0 ∨ (12 ≤ j.val ∧ j.val ≤ 15) → gGaussian2D8bit i j = 0)) ∧
    (∀ (i : Fin 11) (j : Fin 16),
      (1 ≤ j.val ∧ j.val ≤ 11 → 0 < gGaussian2D10bit i j) ∧
      (j.val = 0 ∨ (12 ≤ j.val ∧ j.val ≤ 15) → gGaussian2D10bit i j = 0)) ∧
    (∀ (i : Fin 11) (j : Fin 16),
      (1 ≤ j.val ∧ j.val ≤ 11 → 0 < gGaussian2D16bit i j) ∧
      (j.val = 0 ∨ (12 ≤ j.val ∧ j.val ≤ 15) → gGaussian2D16bit i j = 0)) := by
  decide!

/-- Witness for C8: row 5 of the 16-bit table at column 6 (inside the window) and at column 12
(padding). -/
theorem gaussian_support_witness :
    (1 ≤ (6 : Fin 16).val ∧ (6 : Fin 16).val ≤ 11) ∧ 0 < gGaussian2D16bit 5 6 ∧
    ((12 : Fin 16).val = 0 ∨ (12 ≤ (12 : Fin 16).val ∧ (12 : Fin 16).val ≤ 15)) ∧
    gGaussian2D16bit 5 12 = 0 :=
  ⟨by decide, (gaussian_support.2.2.2 5 6).1 (by decide),
    by decide, (gaussian_support.2.2.2 5 12).2 (by decide)⟩

/-- Claim C9: the 11 x 11 Gaussian window K[i][k] = table[i][k+1] is symmetric under transpose,
vertical mirror (row 10 - i) and horizontal mirror (column 10 - k), in the unscaled table and in
the 8-, 10- and 16-bit tables, as stored. -/
theorem gaussian_window_symmetric :
    ∀ i k : Fin 11,
      (window gGaussian2DOriginal i k = window gGaussian2DOriginal k i ∧
        window gGaussian2DOriginal i k = window gGaussian2DOriginal (mirror i) k ∧
        window gGaussian2DOriginal i k = window gGaussian2DOriginal i (mirror k)) ∧
      (window gGaussian2D8bit i k = window gGaussian2D8bit k i ∧
        window gGaussian2D8bit i k = window gGaussian2D8bit (mirror i) k ∧
        window gGaussian2D8bit i k = window gGaussian2D8bit i (mirror k)) ∧
      (window gGaussian2D10bit i k = window gGaussian2D10bit k i ∧
        window gGaussian2D10bit i k = window gGaussian2D10bit (mirror i) k ∧
        window gGaussian2D10bit i k = window gGaussian2D10bit i (mirror k)) ∧
      (window gGaussian2D16bit i k = window gGaussian2D16bit k i ∧
        window gGaussian2D16bit i k = window gGaussian2D16bit (mirror i) k ∧
        window gGaussian2D16bit i k = window gGaussian2D16bit i (mirror k)) := by
  decide!

/-- Claim C10: the unscaled Gaussian kernel has unit weight: the sum of all 11 x 16 entries of
gGaussian2DOriginal differs from 1 by less than 10^-5, and the sum of the entries of the
depth-d table differs from NF_d by less than NF_d * 10^-5 for d = 8, 10, 16. The sums are the
exact sums of the stored values; the unscaled one is 34359751025 / 2^35, about 1 + 3.7e-7. -/
theorem gaussian_unit_weight :
    |tableSum gGaussian2DOriginal - 1| < 1 / 10 ^ 5 ∧
    |tableSum gGaussian2D8bit - NF_8| < NF_8 * (1 / 10 ^ 5) ∧
    |tableSum gGaussian2D10bit - NF_10| < NF_10 * (1 / 10 ^ 5) ∧
    |tableSum gGaussian2D16bit - NF_16| < NF_16 * (1 / 10 ^ 5) := by
  decide!

end Raisr
